import Mathlib

/-!
Verification of the probe-rs flash-programming and debug-probe library.

This file gives a shallow embedding of the parts of the source relevant to
the layout of assembled flash algorithms (`config/flash_algorithm.rs`), the
ST-Link probe driver (`probe/stlink/mod.rs`), access-port enumeration
(`coresight/ap_access.rs`) and the nRF-recover policy of the cargo-flash
front end (`cargo-flash/src/main.rs`), together with theorems settling the
stated properties of those components.

Machine integers (`u32`, `u16`, `u8`) are modelled as `Nat`; none of the
properties below involve wrap-around arithmetic, and where the source
subtracts (`ram_region.range.end - ram_region.range.start`) the theorems
carry the well-formedness hypothesis `start ≤ end` of a memory region.
-/

namespace ProbeRs

/-- Modelled from the spec: `config/memory.rs` is not in the source tree.
A half-open address range `[start, end)` (Rust `core::ops::Range<u32>`). -/
structure MemRange where
  start : Nat
  «end» : Nat
deriving Repr, DecidableEq

/-- Modelled from the spec: `config/memory.rs` is not in the source tree.
A RAM region of the memory map (§3: half-open address range and usability
flags; only the range is consumed by the assembler). -/
structure RamRegion where
  range : MemRange
deriving Repr, DecidableEq

/-- Modelled from the spec: `config/memory.rs` is not in the source tree.
A flash region of the memory map (§3); the assembler consumes only
`page_size`. -/
structure FlashRegion where
  range : MemRange
  sector_size : Nat
  page_size : Nat
  erased_byte_value : Nat
deriving Repr, DecidableEq

/-- `FlashAlgorithm` of `config/flash_algorithm.rs`: the assembled,
RAM-relocated flash algorithm. -/
structure FlashAlgorithm where
  name : String
  default : Bool
  load_address : Nat
  instructions : List Nat
  pc_init : Option Nat
  pc_uninit : Option Nat
  pc_program_page : Nat
  pc_erase_sector : Nat
  pc_erase_all : Option Nat
  static_base : Nat
  begin_stack : Nat
  begin_data : Nat
  page_buffers : List Nat
deriving Repr, DecidableEq

/-- `RawFlashAlgorithm` of `config/flash_algorithm.rs`: position-independent
code and entry offsets, prior to relocation. -/
structure RawFlashAlgorithm where
  name : String
  description : String
  default : Bool
  instructions : List Nat
  pc_init : Option Nat
  pc_uninit : Option Nat
  pc_program_page : Nat
  pc_erase_sector : Nat
  pc_erase_all : Option Nat
  data_section_offset : Nat
deriving Repr, DecidableEq

/-- `RawFlashAlgorithm::FLASH_BLOB_HEADER_SIZE = 8 * 4`. -/
def FLASH_BLOB_HEADER_SIZE : Nat := 8 * 4

/-- `RawFlashAlgorithm::FLASH_ALGO_STACK_SIZE = 512`. -/
def FLASH_ALGO_STACK_SIZE : Nat := 512

/-- `RawFlashAlgorithm::FLASH_ALGO_STACK_DECREMENT = 64`. -/
def FLASH_ALGO_STACK_DECREMENT : Nat := 64

/-- `RawFlashAlgorithm::FLASH_BLOB_HEADER`: the eight fixed header words. -/
def FLASH_BLOB_HEADER : List Nat :=
  [0xE00ABE00, 0x062D780D, 0x24084068, 0xD3000040,
   0x1E644058, 0x1C49D1FA, 0x2A001E52, 0x04770D1F]

/-- The stack offsets tried by the loop in `RawFlashAlgorithm::assemble`:
`FLASH_ALGO_STACK_SIZE - FLASH_ALGO_STACK_DECREMENT * i` for
`i in 0..FLASH_ALGO_STACK_SIZE / FLASH_ALGO_STACK_DECREMENT`, i.e. for
`i` in `0..8`: the list `[512, 448, 384, 320, 256, 192, 128, 64]`. -/
def stackOffsetCandidates : List Nat :=
  (List.range (FLASH_ALGO_STACK_SIZE / FLASH_ALGO_STACK_DECREMENT)).map
    (fun i => FLASH_ALGO_STACK_SIZE - FLASH_ALGO_STACK_DECREMENT * i)

/-- The stack offset chosen by the loop of `RawFlashAlgorithm::assemble`:
the loop runs through `stackOffsetCandidates` in order and breaks at the
first offset for which `offset + codeSize + pageSize ≤ ramLength`; when no
candidate fits, the loop terminates having assigned the variables for the
last candidate, `64`, and assembly continues regardless. -/
def chooseStackOffset (codeSize pageSize ramLength : Nat) : Nat :=
  (stackOffsetCandidates.find? (fun off => off + codeSize + pageSize ≤ ramLength)).getD
    FLASH_ALGO_STACK_DECREMENT

/-- `RawFlashAlgorithm::assemble` (`config/flash_algorithm.rs` lines 76-132):
prepends the fixed header to the instructions, picks a stack offset, and lays
out stack, code blob, and one or two page buffers inside the RAM region.
Note the function is total: it has no error path. -/
def RawFlashAlgorithm.assemble (self : RawFlashAlgorithm) (ram_region : RamRegion)
    (flash_region : FlashRegion) : FlashAlgorithm :=
  let instructions := FLASH_BLOB_HEADER ++ self.instructions
  let ramLength := ram_region.range.«end» - ram_region.range.start
  let stackOffset :=
    chooseStackOffset (instructions.length * 4) flash_region.page_size ramLength
  let addr_stack := ram_region.range.start + stackOffset
  let addr_load := addr_stack
  let offset1 := stackOffset + instructions.length * 4
  let addr_data := ram_region.range.start + offset1
  let offset2 := offset1 + flash_region.page_size
  let addr_data2 := ram_region.range.start + offset2
  let offset3 := offset2 + flash_region.page_size
  let page_buffers := if offset3 ≤ ramLength then [addr_data, addr_data2] else [addr_data]
  let code_start := addr_load + FLASH_BLOB_HEADER_SIZE
  { name := self.name
    default := self.default
    load_address := addr_load
    instructions := instructions
    pc_init := self.pc_init.map (fun v => code_start + v)
    pc_uninit := self.pc_uninit.map (fun v => code_start + v)
    pc_program_page := code_start + self.pc_program_page
    pc_erase_sector := code_start + self.pc_erase_sector
    pc_erase_all := self.pc_erase_all.map (fun v => code_start + v)
    static_base := code_start + self.data_section_offset
    begin_stack := addr_stack
    begin_data := page_buffers.headD 0
    page_buffers := page_buffers }

/-- The condition under which `assemble` emits a second page buffer: after
the chosen stack offset, the header-plus-instructions blob, and the first
page buffer, a second buffer of `page_size` bytes still fits inside the RAM
region's length. -/
def secondPageBufferFits (raw : RawFlashAlgorithm) (ram_region : RamRegion)
    (flash_region : FlashRegion) : Prop :=
  chooseStackOffset ((FLASH_BLOB_HEADER ++ raw.instructions).length * 4)
      flash_region.page_size (ram_region.range.«end» - ram_region.range.start) +
    (FLASH_BLOB_HEADER ++ raw.instructions).length * 4 +
    flash_region.page_size + flash_region.page_size ≤
  ram_region.range.«end» - ram_region.range.start

lemma stackOffsetCandidates_eq :
    stackOffsetCandidates = [512, 448, 384, 320, 256, 192, 128, 64] := by
  decide

lemma chooseStackOffset_mem (codeSize pageSize ramLength : Nat) :
    chooseStackOffset codeSize pageSize ramLength ∈ stackOffsetCandidates := by
  unfold chooseStackOffset
  cases h : stackOffsetCandidates.find? (fun off => off + codeSize + pageSize ≤ ramLength) with
  | none => simp [stackOffsetCandidates_eq, FLASH_ALGO_STACK_DECREMENT]
  | some off => simpa using List.mem_of_find?_eq_some h

lemma chooseStackOffset_ge (codeSize pageSize ramLength : Nat) :
    64 ≤ chooseStackOffset codeSize pageSize ramLength := by
  have h := chooseStackOffset_mem codeSize pageSize ramLength
  rw [stackOffsetCandidates_eq] at h
  simp only [List.mem_cons, List.not_mem_nil, or_false] at h
  rcases h with h | h | h | h | h | h | h | h <;> omega

lemma chooseStackOffset_fits (codeSize pageSize ramLength : Nat)
    (h : 64 + codeSize + pageSize ≤ ramLength) :
    chooseStackOffset codeSize pageSize ramLength + codeSize + pageSize ≤ ramLength := by
  unfold chooseStackOffset
  cases hf : stackOffsetCandidates.find? (fun off => off + codeSize + pageSize ≤ ramLength) with
  | none =>
    exfalso
    rw [List.find?_eq_none] at hf
    have h64 : (64 : Nat) ∈ stackOffsetCandidates := by rw [stackOffsetCandidates_eq]; simp
    have := hf 64 h64
    simp only [decide_eq_true_eq] at this
    omega
  | some off =>
    have := List.find?_some hf
    simp only [decide_eq_true_eq] at this
    simpa using this

/-- A raw algorithm with no instructions and zeroed entry offsets, a concrete
assembler input. -/
def rawEmpty : RawFlashAlgorithm :=
  { name := "empty", description := "", default := true, instructions := [],
    pc_init := none, pc_uninit := none, pc_program_page := 0,
    pc_erase_sector := 0, pc_erase_all := none, data_section_offset := 0 }

/-- A raw algorithm of 64 instruction words (256 bytes), the input of
scenario S6 of the spec. -/
def raw64 : RawFlashAlgorithm :=
  { rawEmpty with name := "sixtyfour", instructions := List.replicate 64 0 }

/-- A RAM region of length 256 bytes. -/
def ram256 : RamRegion := ⟨⟨0, 256⟩⟩

/-- A RAM region of length 548 bytes: exactly the stack offset 512 plus the
32-byte header plus a 4-byte page. -/
def ram548 : RamRegion := ⟨⟨0, 548⟩⟩

/-- A RAM region of length 1024 bytes. -/
def ram1024 : RamRegion := ⟨⟨0, 1024⟩⟩

/-- A flash region with a page size of 4 bytes. -/
def flash4 : FlashRegion := ⟨⟨0, 4096⟩, 4, 4, 0xFF⟩

/-- C1: on a RAM region of length 256 and an algorithm of 64 instruction
words, `assemble` does not fail with `NotEnoughRam` — it has no failure path
at all — and instead returns a `FlashAlgorithm` whose stack offset is the
smallest candidate 64 and whose single page buffer at 352 extends past the
end of the RAM region (offset 356 > 256). -/
theorem assemble_ram256_returns_overflowing_layout :
    (raw64.assemble ram256 flash4).begin_stack = 64 ∧
    (raw64.assemble ram256 flash4).begin_data = 352 ∧
    (raw64.assemble ram256 flash4).page_buffers = [352] ∧
    ram256.range.«end» < (raw64.assemble ram256 flash4).begin_data + flash4.page_size := by
  decide

/-- C2 (counterexample): the claimed layout invariant fails on the concrete
input `rawEmpty`, `ram548`, `flash4`: the produced algorithm has
`load_address = 512` and 8 instruction words, so
`load_address + 32 + 4·|instructions| + page_size = 580 > 548 = ram.end`
(the 32-byte header is already counted inside `instructions`), and
`page_buffers[0] = 544` is not greater than
`load_address + 32 + 4·|instructions| = 576`. -/
theorem assemble_layout_claim_counterexample :
    ¬ (ram548.range.start ≤ (rawEmpty.assemble ram548 flash4).load_address ∧
       (rawEmpty.assemble ram548 flash4).load_address + 32 +
           4 * (rawEmpty.assemble ram548 flash4).instructions.length +
           flash4.page_size ≤ ram548.range.«end» ∧
       (rawEmpty.assemble ram548 flash4).load_address + 32 +
           4 * (rawEmpty.assemble ram548 flash4).instructions.length <
         (rawEmpty.assemble ram548 flash4).page_buffers.headD 0) := by
  decide

/-- C2 (amended): for every input on which some tried stack offset fits —
equivalently `64 + 4·|header ++ instructions| + page_size ≤ ram length` —
the produced FlashAlgorithm satisfies `load_address ≥ ram.start`,
`load_address + 4·|instructions| + page_size ≤ ram.end` (the 32-byte header
is part of `instructions`), and `page_buffers[0]` equals
`load_address + 4·|instructions|`, the first byte after the code blob. -/
theorem assemble_layout_invariant (raw : RawFlashAlgorithm) (ram : RamRegion)
    (flash : FlashRegion)
    (hwf : ram.range.start ≤ ram.range.«end»)
    (hfit : 64 + (FLASH_BLOB_HEADER ++ raw.instructions).length * 4 + flash.page_size ≤
      ram.range.«end» - ram.range.start) :
    ram.range.start ≤ (raw.assemble ram flash).load_address ∧
    (raw.assemble ram flash).load_address +
        4 * (raw.assemble ram flash).instructions.length + flash.page_size ≤
      ram.range.«end» ∧
    (raw.assemble ram flash).page_buffers.headD 0 =
      (raw.assemble ram flash).load_address +
        4 * (raw.assemble ram flash).instructions.length := by
  have hch := chooseStackOffset_fits ((FLASH_BLOB_HEADER ++ raw.instructions).length * 4)
    flash.page_size (ram.range.«end» - ram.range.start) hfit
  simp only [RawFlashAlgorithm.assemble]
  refine ⟨Nat.le_add_right _ _, by omega, ?_⟩
  split <;> simp <;> omega

/-- C2 (witness): the amended layout invariant holds on the concrete input
`rawEmpty`, `ram1024`, `flash4`. -/
theorem assemble_layout_invariant_witness :
    ram1024.range.start ≤ (rawEmpty.assemble ram1024 flash4).load_address ∧
    (rawEmpty.assemble ram1024 flash4).load_address +
        4 * (rawEmpty.assemble ram1024 flash4).instructions.length + flash4.page_size ≤
      ram1024.range.«end» ∧
    (rawEmpty.assemble ram1024 flash4).page_buffers.headD 0 =
      (rawEmpty.assemble ram1024 flash4).load_address +
        4 * (rawEmpty.assemble ram1024 flash4).instructions.length :=
  assemble_layout_invariant rawEmpty ram1024 flash4 (by decide) (by decide)

/-- C5: the assembled entry points are `code_start + raw offset` for
`code_start = load_address + 32` (the fixed flash-blob header size), for
`pc_program_page`, `pc_erase_sector`, and the optional `pc_init`,
`pc_uninit`, `pc_erase_all`; and `static_base = code_start +
raw.data_section_offset`. -/
theorem assemble_entry_points (raw : RawFlashAlgorithm) (ram : RamRegion)
    (flash : FlashRegion) :
    (raw.assemble ram flash).pc_program_page =
        (raw.assemble ram flash).load_address + 32 + raw.pc_program_page ∧
    (raw.assemble ram flash).pc_erase_sector =
        (raw.assemble ram flash).load_address + 32 + raw.pc_erase_sector ∧
    (raw.assemble ram flash).pc_init =
        raw.pc_init.map (fun v => (raw.assemble ram flash).load_address + 32 + v) ∧
    (raw.assemble ram flash).pc_uninit =
        raw.pc_uninit.map (fun v => (raw.assemble ram flash).load_address + 32 + v) ∧
    (raw.assemble ram flash).pc_erase_all =
        raw.pc_erase_all.map (fun v => (raw.assemble ram flash).load_address + 32 + v) ∧
    (raw.assemble ram flash).static_base =
        (raw.assemble ram flash).load_address + 32 + raw.data_section_offset := by
  simp [RawFlashAlgorithm.assemble, FLASH_BLOB_HEADER_SIZE]

/-- C6: the assembled algorithm has exactly two page buffers when a second
buffer of `page_size` bytes still fits inside the RAM region after the
chosen stack offset, the header-plus-instructions blob, and the first page
buffer, and exactly one page buffer otherwise. -/
theorem assemble_page_buffers_count (raw : RawFlashAlgorithm) (ram : RamRegion)
    (flash : FlashRegion) :
    ((raw.assemble ram flash).page_buffers.length = 2 ↔
      secondPageBufferFits raw ram flash) ∧
    ((raw.assemble ram flash).page_buffers.length = 1 ↔
      ¬ secondPageBufferFits raw ram flash) := by
  simp only [RawFlashAlgorithm.assemble, secondPageBufferFits]
  split <;> rename_i h <;> simp_all

/-! ## ST-Link probe driver (`probe/stlink/mod.rs`)

The USB transport is modelled as an oracle `respond` mapping each command
byte vector to the device's response bytes, together with a `trace` of every
command written, in order.  The modelled transport itself never fails (USB
errors are out of scope of the settled properties), so the `Err` branches of
`device.write` in the source are dead here. -/

/-- `Port` of `probe/mod.rs`: the target of a DAP register access. -/
inductive Port where
  | DebugPort : Port
  | AccessPort : Nat → Port
deriving Repr, DecidableEq

/-- `StlinkError` of `probe/stlink/mod.rs`. -/
inductive StlinkError where
  | VoltageDivisionByZero : StlinkError
  | UnknownMode : StlinkError
  | JTagDoesNotSupportMultipleAP : StlinkError
  | BlanksNotAllowedOnDPRegister : StlinkError
  | NotEnoughBytesRead : StlinkError
  | EndpointNotFound : StlinkError
deriving Repr, DecidableEq

/-- The variants of `DebugProbeError` (`probe/mod.rs`) reached by the
ST-Link driver. -/
inductive DebugProbeError where
  | USB : DebugProbeError
  | JTAGNotSupportedOnProbe : DebugProbeError
  | ProbeFirmwareOutdated : DebugProbeError
  | Unknown : DebugProbeError
  | Stlink : StlinkError → DebugProbeError
deriving Repr, DecidableEq

/-- `Mode` of `probe/stlink/constants.rs`: the current device mode. -/
inductive Mode where
  | Dfu : Mode
  | MassStorage : Mode
  | Jtag : Mode
  | Swim : Mode
deriving Repr, DecidableEq

namespace commands

/-- Modelled from the spec: `probe/stlink/constants.rs` is not in the source
tree; §4.2 names the ST-Link vendor commands but not their opcode bytes, so
the values below are stand-ins — every settled property depends only on
which command vectors are written, never on the numeric opcode values. -/
def GET_VERSION : Nat := 0xF1

/-- Modelled from the spec: see `commands.GET_VERSION`. -/
def JTAG_COMMAND : Nat := 0xF2

/-- Modelled from the spec: see `commands.GET_VERSION`. -/
def DFU_COMMAND : Nat := 0xF3

/-- Modelled from the spec: see `commands.GET_VERSION`. -/
def SWIM_COMMAND : Nat := 0xF4

/-- Modelled from the spec: see `commands.GET_VERSION`. -/
def GET_CURRENT_MODE : Nat := 0xF5

/-- Modelled from the spec: see `commands.GET_VERSION`. -/
def GET_TARGET_VOLTAGE : Nat := 0xF7

/-- Modelled from the spec: see `commands.GET_VERSION`. -/
def GET_VERSION_EXT : Nat := 0xFB

/-- Modelled from the spec: see `commands.GET_VERSION`. -/
def DFU_EXIT : Nat := 0x07

/-- Modelled from the spec: see `commands.GET_VERSION`. -/
def SWIM_EXIT : Nat := 0x01

/-- Modelled from the spec: see `commands.GET_VERSION`. -/
def JTAG_READ_DAP_REG : Nat := 0x45

/-- Modelled from the spec: see `commands.GET_VERSION`. -/
def JTAG_WRITE_DAP_REG : Nat := 0x46

/-- Modelled from the spec: see `commands.GET_VERSION`. -/
def JTAG_INIT_AP : Nat := 0x4B

/-- Modelled from the spec: see `commands.GET_VERSION`. -/
def JTAG_CLOSE_AP_DBG : Nat := 0x4C

/-- Modelled from the spec: see `commands.GET_VERSION`. -/
def JTAG_AP_NO_CORE : Nat := 0x00

end commands

/-- Modelled from the spec: `Status::JtagOk` of `constants.rs` (value a
stand-in, see `commands.GET_VERSION`). -/
def StatusJtagOk : Nat := 0x80

/-- The USB device of `probe/stlink/usb_interface.rs`, reduced to a response
oracle plus the trace of written commands. -/
structure STLinkUSBDevice where
  respond : List Nat → List Nat
  trace : List (List Nat)

/-- `STLinkUSBDevice::write`: sends one command and returns the response
bytes; the command is recorded on the trace. -/
def STLinkUSBDevice.write (d : STLinkUSBDevice) (cmd : List Nat) :
    List Nat × STLinkUSBDevice :=
  (d.respond cmd, { d with trace := d.trace ++ [cmd] })

/-- The `STLink` probe state (`probe/stlink/mod.rs`); the `protocol` field is
omitted — no settled property touches `attach`. -/
structure STLink where
  device : STLinkUSBDevice
  hw_version : Nat
  jtag_version : Nat

/-- `STLink::MIN_JTAG_VERSION = 24`. -/
def MIN_JTAG_VERSION : Nat := 24

/-- `STLink::MIN_JTAG_VERSION_MULTI_AP = 28`. -/
def MIN_JTAG_VERSION_MULTI_AP : Nat := 28

/-- Little-endian 32-bit read of `buf[off..off+4]` (`pread` of the source;
bytes past the end of the response read as 0). -/
def readLE32 (buf : List Nat) (off : Nat) : Nat :=
  buf.getD off 0 + buf.getD (off + 1) 0 * 0x100 +
    buf.getD (off + 2) 0 * 0x10000 + buf.getD (off + 3) 0 * 0x1000000

/-- `STLink::check_status`: any first status byte other than
`Status::JtagOk` is `DebugProbeError::Unknown`. -/
def check_status (status : List Nat) : Except DebugProbeError Unit :=
  if status.headD 0 ≠ StatusJtagOk then Except.error DebugProbeError.Unknown
  else Except.ok ()

/-- The `cmd` vector built by `STLink::read_register`. -/
def read_dap_cmd (portNumber addr : Nat) : List Nat :=
  [commands.JTAG_COMMAND, commands.JTAG_READ_DAP_REG,
   portNumber &&& 0xFF, (portNumber >>> 8) &&& 0xFF,
   addr &&& 0xFF, (addr >>> 8) &&& 0xFF]

/-- The `cmd` vector built by `STLink::write_register`. -/
def write_dap_cmd (portNumber addr value : Nat) : List Nat :=
  [commands.JTAG_COMMAND, commands.JTAG_WRITE_DAP_REG,
   portNumber &&& 0xFF, (portNumber >>> 8) &&& 0xFF,
   addr &&& 0xFF, (addr >>> 8) &&& 0xFF,
   value &&& 0xFF, (value >>> 8) &&& 0xFF,
   (value >>> 16) &&& 0xFF, (value >>> 24) &&& 0xFF]

/-- The port number sent on the wire: `0xffff` for the DP, the AP number for
an AP. -/
def Port.number : Port → Nat
  | Port.DebugPort => 0xffff
  | Port.AccessPort p => p

/-- `STLink::read_register` (`probe/stlink/mod.rs` lines 110-133): a DP read
whose address has a nonzero `0xf0` nibble is rejected up front with
`BlanksNotAllowedOnDPRegister`; otherwise the `JTAG_READ_DAP_REG` command is
written and the value is the little-endian word at bytes 4..8 of the
response. -/
def STLink.read_register (s : STLink) (port : Port) (addr : Nat) :
    Except DebugProbeError Nat × STLink :=
  if addr &&& 0xf0 = 0 ∨ port ≠ Port.DebugPort then
    let (buf, dev) := s.device.write (read_dap_cmd port.number addr)
    match check_status buf with
    | Except.error e => (Except.error e, { s with device := dev })
    | Except.ok _ => (Except.ok (readLE32 buf 4), { s with device := dev })
  else
    (Except.error (DebugProbeError.Stlink StlinkError.BlanksNotAllowedOnDPRegister), s)

/-- `STLink::write_register` (`probe/stlink/mod.rs` lines 136-163): a DP
write whose address has a nonzero `0xf0` nibble is rejected up front with
`BlanksNotAllowedOnDPRegister`; otherwise the `JTAG_WRITE_DAP_REG` command
carrying the little-endian value is written. -/
def STLink.write_register (s : STLink) (port : Port) (addr value : Nat) :
    Except DebugProbeError Unit × STLink :=
  if addr &&& 0xf0 = 0 ∨ port ≠ Port.DebugPort then
    let (buf, dev) := s.device.write (write_dap_cmd port.number addr value)
    match check_status buf with
    | Except.error e => (Except.error e, { s with device := dev })
    | Except.ok _ => (Except.ok (), { s with device := dev })
  else
    (Except.error (DebugProbeError.Stlink StlinkError.BlanksNotAllowedOnDPRegister), s)

/-- `STLink::get_current_mode`: the first response byte encodes the mode;
any byte above 3 is `UnknownMode`. -/
def STLink.get_current_mode (s : STLink) : Except DebugProbeError Mode × STLink :=
  let (buf, dev) := s.device.write [commands.GET_CURRENT_MODE]
  let s := { s with device := dev }
  match buf.headD 0 with
  | 0 => (Except.ok Mode.Dfu, s)
  | 1 => (Except.ok Mode.MassStorage, s)
  | 2 => (Except.ok Mode.Jtag, s)
  | 3 => (Except.ok Mode.Swim, s)
  | _ => (Except.error (DebugProbeError.Stlink StlinkError.UnknownMode), s)

/-- `STLink::enter_idle`: leaves DFU or SWIM mode, does nothing in the other
modes. -/
def STLink.enter_idle (s : STLink) : Except DebugProbeError Unit × STLink :=
  match s.get_current_mode with
  | (Except.error e, s) => (Except.error e, s)
  | (Except.ok Mode.Dfu, s) =>
    let (_, dev) := s.device.write [commands.DFU_COMMAND, commands.DFU_EXIT]
    (Except.ok (), { s with device := dev })
  | (Except.ok Mode.Swim, s) =>
    let (_, dev) := s.device.write [commands.SWIM_COMMAND, commands.SWIM_EXIT]
    (Except.ok (), { s with device := dev })
  | (Except.ok _, s) => (Except.ok (), s)

/-- `STLink::get_version` (`probe/stlink/mod.rs` lines 257-315): parses the
big-endian 16-bit version word of the `GET_VERSION` response into
`hw_version` (bits 15:12) and `jtag_version` (bits 11:6); for `hw_version ≥
3` the JTAG version is re-read from byte 2 of the `GET_VERSION_EXT`
response.  A zero JTAG version is `JTAGNotSupportedOnProbe`; on hardware
below version 3 a JTAG version below `MIN_JTAG_VERSION` is
`ProbeFirmwareOutdated`. -/
def STLink.get_version (s : STLink) : Except DebugProbeError (Nat × Nat) × STLink :=
  let (buf, dev) := s.device.write [commands.GET_VERSION]
  let version := buf.headD 0 * 0x100 + buf.getD 1 0
  let s := { s with device := dev,
                    hw_version := (version >>> 12) &&& 0x0F,
                    jtag_version := (version >>> 6) &&& 0x3F }
  let s :=
    if 3 ≤ s.hw_version then
      let (buf2, dev2) := s.device.write [commands.GET_VERSION_EXT]
      { s with device := dev2, jtag_version := buf2.getD 2 0 }
    else s
  if s.jtag_version = 0 then
    (Except.error DebugProbeError.JTAGNotSupportedOnProbe, s)
  else if s.hw_version < 3 ∧ s.jtag_version < MIN_JTAG_VERSION then
    (Except.error DebugProbeError.ProbeFirmwareOutdated, s)
  else
    (Except.ok (s.hw_version, s.jtag_version), s)

/-- `STLink::get_target_voltage`: fails with `VoltageDivisionByZero` when
the first response word is zero.  The voltage itself (an `f32` in the
source) is not modelled; `init` discards it. -/
def STLink.get_target_voltage (s : STLink) : Except DebugProbeError Unit × STLink :=
  let (buf, dev) := s.device.write [commands.GET_TARGET_VOLTAGE]
  let s := { s with device := dev }
  if readLE32 buf 0 ≠ 0 then (Except.ok (), s)
  else (Except.error (DebugProbeError.Stlink StlinkError.VoltageDivisionByZero), s)

/-- `STLink::init` (`probe/stlink/mod.rs` lines 319-338): enter idle mode,
query the version, read the target voltage.  The source's retry-after-USB-
reset branch is dead in this model because the modelled transport never
returns a USB error. -/
def STLink.init (s : STLink) : Except DebugProbeError Unit × STLink :=
  match s.enter_idle with
  | (Except.error e, s) => (Except.error e, s)
  | (Except.ok _, s) =>
    match s.get_version with
    | (Except.error e, s) => (Except.error e, s)
    | (Except.ok _, s) => s.get_target_voltage

/-- `STLink::new_from_probe_info` builds a probe with zeroed versions and
runs `init`; this is the fresh starting state. -/
def STLink.fresh (respond : List Nat → List Nat) : STLink :=
  { device := { respond := respond, trace := [] }, hw_version := 0, jtag_version := 0 }

/-- `STLink::open_ap` (`probe/stlink/mod.rs` lines 378-396): below firmware
28 fails with `JTagDoesNotSupportMultipleAP` without touching the device;
otherwise writes `JTAG_INIT_AP`. -/
def STLink.open_ap (s : STLink) (apsel : Nat) : Except DebugProbeError Unit × STLink :=
  if s.jtag_version < MIN_JTAG_VERSION_MULTI_AP then
    (Except.error (DebugProbeError.Stlink StlinkError.JTagDoesNotSupportMultipleAP), s)
  else
    let (buf, dev) := s.device.write
      [commands.JTAG_COMMAND, commands.JTAG_INIT_AP, apsel, commands.JTAG_AP_NO_CORE]
    (check_status buf, { s with device := dev })

/-- `STLink::close_ap` (`probe/stlink/mod.rs` lines 398-415): below firmware
28 fails with `JTagDoesNotSupportMultipleAP` without touching the device;
otherwise writes `JTAG_CLOSE_AP_DBG`. -/
def STLink.close_ap (s : STLink) (apsel : Nat) : Except DebugProbeError Unit × STLink :=
  if s.jtag_version < MIN_JTAG_VERSION_MULTI_AP then
    (Except.error (DebugProbeError.Stlink StlinkError.JTagDoesNotSupportMultipleAP), s)
  else
    let (buf, dev) := s.device.write
      [commands.JTAG_COMMAND, commands.JTAG_CLOSE_AP_DBG, apsel]
    (check_status buf, { s with device := dev })

/-- A transport oracle that answers every command with an OK status word. -/
def okRespond : List Nat → List Nat := fun _ => [0x80, 0, 0, 0, 0, 0, 0, 0]

/-- A concrete ST-Link with hardware version 2 and firmware 30. -/
def stlinkV2J30 : STLink :=
  { device := { respond := okRespond, trace := [] }, hw_version := 2, jtag_version := 30 }

/-- A concrete ST-Link with hardware version 2 and firmware 20. -/
def stlinkV2J20 : STLink :=
  { device := { respond := okRespond, trace := [] }, hw_version := 2, jtag_version := 20 }

lemma write_register_state_of_cond (s : STLink) (port : Port) (addr value : Nat)
    (h : addr &&& 0xf0 = 0 ∨ port ≠ Port.DebugPort) :
    (s.write_register port addr value).2 =
      { s with device :=
          { s.device with trace := s.device.trace ++ [write_dap_cmd port.number addr value] } } := by
  simp only [STLink.write_register, if_pos h, STLinkUSBDevice.write]
  cases hc : check_status (s.device.respond (write_dap_cmd port.number addr value)) <;> simp [hc]

lemma read_register_state_of_cond (s : STLink) (port : Port) (addr : Nat)
    (h : addr &&& 0xf0 = 0 ∨ port ≠ Port.DebugPort) :
    (s.read_register port addr).2 =
      { s with device :=
          { s.device with trace := s.device.trace ++ [read_dap_cmd port.number addr] } } := by
  simp only [STLink.read_register, if_pos h, STLinkUSBDevice.write]
  cases hc : check_status (s.device.respond (read_dap_cmd port.number addr)) <;> simp [hc]

/-- C3 (counterexample): at the DP address `0x4`, whose low nibble is
nonzero, `write_register` does not fail (its `0xf0` nibble is zero): it
returns `Ok` and writes the command to the device, refuting the claim's
"low nibble" reading. -/
theorem write_register_low_nibble_counterexample :
    ¬ ((4 : Nat) % 16 ≠ 0 →
       (stlinkV2J30.write_register Port.DebugPort 4 0).1 =
           Except.error (DebugProbeError.Stlink StlinkError.BlanksNotAllowedOnDPRegister) ∧
       (stlinkV2J30.write_register Port.DebugPort 4 0).2.device.trace =
         stlinkV2J30.device.trace) := by
  intro h
  have h1 : (stlinkV2J30.write_register Port.DebugPort 4 0).1 = Except.ok () := rfl
  exact Except.noConfusion (h1.symm.trans (h (by decide)).1)

/-- C3 (amended): ST-Link DP register writes are valid only for addresses
whose `0xf0` nibble (bits 4-7) is zero: for `(addr & 0xf0) ≠ 0` the write
fails with `BlanksNotAllowedOnDPRegister` and sends no command to the
device, while DP writes with `(addr & 0xf0) = 0` and all AccessPort writes
are issued to the device. -/
theorem write_register_blank_check (s : STLink) (addr value : Nat) :
    (addr &&& 0xf0 ≠ 0 →
      s.write_register Port.DebugPort addr value =
        (Except.error (DebugProbeError.Stlink StlinkError.BlanksNotAllowedOnDPRegister), s)) ∧
    (addr &&& 0xf0 = 0 →
      (s.write_register Port.DebugPort addr value).2.device.trace =
        s.device.trace ++ [write_dap_cmd 0xffff addr value]) ∧
    (∀ p, (s.write_register (Port.AccessPort p) addr value).2.device.trace =
        s.device.trace ++ [write_dap_cmd p addr value]) := by
  refine ⟨fun h => ?_, fun h => ?_, fun p => ?_⟩
  · simp [STLink.write_register, h]
  · rw [write_register_state_of_cond s Port.DebugPort addr value (Or.inl h)]
    simp [Port.number]
  · rw [write_register_state_of_cond s (Port.AccessPort p) addr value
      (Or.inr (by simp))]
    simp [Port.number]

/-- C3 (witness): the amended statement at the concrete DP address `0x10`
(whose `0xf0` nibble is nonzero) and at address `0` on the DP. -/
theorem write_register_blank_check_witness :
    (stlinkV2J30.write_register Port.DebugPort 0x10 0 =
      (Except.error (DebugProbeError.Stlink StlinkError.BlanksNotAllowedOnDPRegister),
       stlinkV2J30)) ∧
    (stlinkV2J30.write_register Port.DebugPort 0 0).2.device.trace =
      [write_dap_cmd 0xffff 0 0] :=
  ⟨(write_register_blank_check stlinkV2J30 0x10 0).1 (by decide),
   by simpa using (write_register_blank_check stlinkV2J30 0 0).2.1 (by decide)⟩

/-- C10: ST-Link DP register reads obey the same address restriction as
writes: for `(addr & 0xf0) ≠ 0` the DP read fails with
`BlanksNotAllowedOnDPRegister` without issuing any USB transfer, while
AccessPort reads are accepted (the command is issued and the blank-address
error cannot arise) for every address. -/
theorem read_register_blank_check (s : STLink) (addr : Nat) :
    (addr &&& 0xf0 ≠ 0 →
      s.read_register Port.DebugPort addr =
        (Except.error (DebugProbeError.Stlink StlinkError.BlanksNotAllowedOnDPRegister), s)) ∧
    (∀ p, (s.read_register (Port.AccessPort p) addr).2.device.trace =
        s.device.trace ++ [read_dap_cmd p addr] ∧
      (s.read_register (Port.AccessPort p) addr).1 ≠
        Except.error (DebugProbeError.Stlink StlinkError.BlanksNotAllowedOnDPRegister)) := by
  refine ⟨fun h => ?_, fun p => ⟨?_, ?_⟩⟩
  · simp [STLink.read_register, h]
  · rw [read_register_state_of_cond s (Port.AccessPort p) addr (Or.inr (by simp))]
    simp [Port.number]
  · simp only [STLink.read_register, if_pos (Or.inr (by simp : Port.AccessPort p ≠ Port.DebugPort)),
      STLinkUSBDevice.write]
    cases hc : check_status (s.device.respond (read_dap_cmd (Port.AccessPort p).number addr)) with
    | error e =>
      simp only [hc]
      have : e = DebugProbeError.Unknown := by
        revert hc; unfold check_status; split
        · intro hc; cases hc; rfl
        · intro hc; cases hc
      simp [this]
    | ok _ => simp [hc]

/-- C10 (witness): the DP read at address `0x10` is rejected without a USB
transfer, and the AP read at the same address is issued. -/
theorem read_register_blank_check_witness :
    (stlinkV2J30.read_register Port.DebugPort 0x10 =
      (Except.error (DebugProbeError.Stlink StlinkError.BlanksNotAllowedOnDPRegister),
       stlinkV2J30)) ∧
    (stlinkV2J30.read_register (Port.AccessPort 0) 0x10).2.device.trace =
      [read_dap_cmd 0 0x10] :=
  ⟨(read_register_blank_check stlinkV2J30 0x10).1 (by decide),
   by simpa using ((read_register_blank_check stlinkV2J30 0x10).2 0).1⟩

/-- The hardware version parsed by `get_version` from the big-endian
response bytes: bits 15:12. -/
def parsedHw (b0 b1 : Nat) : Nat := ((b0 * 0x100 + b1) >>> 12) &&& 0x0F

/-- The JTAG firmware version parsed by `get_version` from the big-endian
response bytes: bits 11:6. -/
def parsedJtag (b0 b1 : Nat) : Nat := ((b0 * 0x100 + b1) >>> 6) &&& 0x3F

lemma enter_idle_jtag_mode (s : STLink)
    (hmode : s.device.respond [commands.GET_CURRENT_MODE] = [2]) :
    s.enter_idle =
      (Except.ok (), { s with device :=
        { s.device with trace := s.device.trace ++ [[commands.GET_CURRENT_MODE]] } }) := by
  simp [STLink.enter_idle, STLink.get_current_mode, STLinkUSBDevice.write, hmode]

lemma get_version_outdated (s : STLink) (b0 b1 : Nat)
    (hver : s.device.respond [commands.GET_VERSION] = [b0, b1, 0, 0, 0, 0])
    (hhw : parsedHw b0 b1 < 3) (hj0 : parsedJtag b0 b1 ≠ 0)
    (hj : parsedJtag b0 b1 < 24) :
    s.get_version =
      (Except.error DebugProbeError.ProbeFirmwareOutdated,
       { s with
          device := { s.device with trace := s.device.trace ++ [[commands.GET_VERSION]] },
          hw_version := parsedHw b0 b1,
          jtag_version := parsedJtag b0 b1 }) := by
  simp only [parsedHw, parsedJtag] at hhw hj0 hj ⊢
  unfold STLink.get_version
  simp only [STLinkUSBDevice.write, hver, List.headD_cons, List.getD_cons_zero,
    List.getD_cons_succ]
  rw [if_neg (show ¬ 3 ≤ ((b0 * 0x100 + b1) >>> 12) &&& 0x0F by omega)]
  simp [hhw, hj0, hj, MIN_JTAG_VERSION]

lemma get_version_ok_low_hw (s : STLink) (b0 b1 : Nat)
    (hver : s.device.respond [commands.GET_VERSION] = [b0, b1, 0, 0, 0, 0])
    (hhw : parsedHw b0 b1 < 3) (hj : 24 ≤ parsedJtag b0 b1) :
    (s.get_version).1 = Except.ok (parsedHw b0 b1, parsedJtag b0 b1) := by
  simp only [parsedHw, parsedJtag] at hhw hj ⊢
  unfold STLink.get_version
  simp only [STLinkUSBDevice.write, hver, List.headD_cons, List.getD_cons_zero,
    List.getD_cons_succ]
  rw [if_neg (show ¬ 3 ≤ ((b0 * 0x100 + b1) >>> 12) &&& 0x0F by omega)]
  simp [MIN_JTAG_VERSION, show ((b0 * 0x100 + b1) >>> 6) &&& 0x3F ≠ 0 by omega,
    show ¬ ((b0 * 0x100 + b1) >>> 6) &&& 0x3F < 24 by omega]

lemma get_version_ok_v3 (s : STLink) (b0 b1 e2 : Nat)
    (hver : s.device.respond [commands.GET_VERSION] = [b0, b1, 0, 0, 0, 0])
    (hext : s.device.respond [commands.GET_VERSION_EXT] =
      [0, 0, e2, 0, 0, 0, 0, 0, 0, 0, 0, 0])
    (hhw : 3 ≤ parsedHw b0 b1) (he2 : e2 ≠ 0) :
    (s.get_version).1 = Except.ok (parsedHw b0 b1, e2) := by
  simp only [parsedHw, parsedJtag] at hhw ⊢
  unfold STLink.get_version
  simp only [STLinkUSBDevice.write, hver, List.headD_cons, List.getD_cons_zero,
    List.getD_cons_succ]
  rw [if_pos (show 3 ≤ ((b0 * 0x100 + b1) >>> 12) &&& 0x0F by omega)]
  simp [hext, he2, MIN_JTAG_VERSION,
    show ¬ ((b0 * 0x100 + b1) >>> 12) &&& 0x0F < 3 by omega]

/-- C4: on hardware below version 3 with a nonzero reported JTAG firmware
version below 24, opening the probe (`init`, run by `new_from_probe_info`
before any `attach`) fails with `ProbeFirmwareOutdated`, and the commands
issued up to that point are exactly `GET_CURRENT_MODE` and `GET_VERSION` —
no DAP transaction (`JTAG_READ_DAP_REG` / `JTAG_WRITE_DAP_REG`) appears on
the trace; with firmware ≥ 24, or on hardware ≥ 3 (whose nonzero JTAG
version comes from byte 2 of the `GET_VERSION_EXT` response), the version
check succeeds. -/
theorem stlink_version_check (respond : List Nat → List Nat) (b0 b1 e2 : Nat)
    (hmode : respond [commands.GET_CURRENT_MODE] = [2])
    (hver : respond [commands.GET_VERSION] = [b0, b1, 0, 0, 0, 0])
    (hext : respond [commands.GET_VERSION_EXT] =
      [0, 0, e2, 0, 0, 0, 0, 0, 0, 0, 0, 0]) :
    (parsedHw b0 b1 < 3 → 0 < parsedJtag b0 b1 → parsedJtag b0 b1 < 24 →
      (STLink.init (STLink.fresh respond)).1 =
          Except.error DebugProbeError.ProbeFirmwareOutdated ∧
      (STLink.init (STLink.fresh respond)).2.device.trace =
        [[commands.GET_CURRENT_MODE], [commands.GET_VERSION]] ∧
      ∀ c ∈ (STLink.init (STLink.fresh respond)).2.device.trace,
        commands.JTAG_READ_DAP_REG ∉ c ∧ commands.JTAG_WRITE_DAP_REG ∉ c) ∧
    (parsedHw b0 b1 < 3 → 24 ≤ parsedJtag b0 b1 →
      ((STLink.fresh respond).get_version).1 =
        Except.ok (parsedHw b0 b1, parsedJtag b0 b1)) ∧
    (3 ≤ parsedHw b0 b1 → 0 < e2 →
      ((STLink.fresh respond).get_version).1 =
        Except.ok (parsedHw b0 b1, e2)) := by
  refine ⟨fun hhw hj0 hj => ?_, fun hhw hj => ?_, fun hhw he2 => ?_⟩
  · have hidle := enter_idle_jtag_mode (STLink.fresh respond)
      (by simpa [STLink.fresh] using hmode)
    have hgv := get_version_outdated
      ({ STLink.fresh respond with device :=
          { (STLink.fresh respond).device with
              trace := (STLink.fresh respond).device.trace ++ [[commands.GET_CURRENT_MODE]] } })
      b0 b1 (by simpa [STLink.fresh] using hver) hhw (by omega) hj
    simp only [STLink.init, hidle, hgv]
    refine ⟨trivial, by simp [STLink.fresh], ?_⟩
    have htr : (STLink.fresh respond).device.trace ++ [[commands.GET_CURRENT_MODE]] ++
        [[commands.GET_VERSION]] = [[commands.GET_CURRENT_MODE], [commands.GET_VERSION]] := by
      simp [STLink.fresh]
    rw [htr]
    intro c hc
    simp only [List.mem_cons, List.not_mem_nil, or_false] at hc
    rcases hc with rfl | rfl <;> decide
  · exact get_version_ok_low_hw (STLink.fresh respond) b0 b1
      (by simpa [STLink.fresh] using hver) hhw hj
  · exact get_version_ok_v3 (STLink.fresh respond) b0 b1 e2
      (by simpa [STLink.fresh] using hver)
      (by simpa [STLink.fresh] using hext) hhw (by omega)

/-- A concrete transport oracle reporting mode JTAG, hardware version 2 and
JTAG firmware version 20 (version word `0x2500`), the probe of scenario S4. -/
def outdatedRespond : List Nat → List Nat := fun c =>
  if c = [commands.GET_CURRENT_MODE] then [2]
  else if c = [commands.GET_VERSION] then [0x25, 0x00, 0, 0, 0, 0]
  else if c = [commands.GET_VERSION_EXT] then [0, 0, 30, 0, 0, 0, 0, 0, 0, 0, 0, 0]
  else [0x80, 0, 0, 0, 0, 0, 0, 0]

/-- C4 (witness): on the concrete probe reporting hardware 2 and firmware
20, `init` fails with `ProbeFirmwareOutdated` having issued only
`GET_CURRENT_MODE` and `GET_VERSION`. -/
theorem stlink_version_check_witness :
    (STLink.init (STLink.fresh outdatedRespond)).1 =
        Except.error DebugProbeError.ProbeFirmwareOutdated ∧
    (STLink.init (STLink.fresh outdatedRespond)).2.device.trace =
      [[commands.GET_CURRENT_MODE], [commands.GET_VERSION]] ∧
    ∀ c ∈ (STLink.init (STLink.fresh outdatedRespond)).2.device.trace,
      commands.JTAG_READ_DAP_REG ∉ c ∧ commands.JTAG_WRITE_DAP_REG ∉ c :=
  (stlink_version_check outdatedRespond 0x25 0x00 30 rfl rfl rfl).1
    (by decide) (by decide) (by decide)

/-- C7: below JTAG firmware 28 both `open_ap` and `close_ap` fail with the
multi-AP-unsupported error `JTagDoesNotSupportMultipleAP` without sending
any command to the device; from firmware 28 on they issue the
`JTAG_INIT_AP` and `JTAG_CLOSE_AP_DBG` commands respectively. -/
theorem stlink_multi_ap_commands (s : STLink) (apsel : Nat) :
    (s.jtag_version < 28 →
      s.open_ap apsel =
        (Except.error (DebugProbeError.Stlink StlinkError.JTagDoesNotSupportMultipleAP), s) ∧
      s.close_ap apsel =
        (Except.error (DebugProbeError.Stlink StlinkError.JTagDoesNotSupportMultipleAP), s)) ∧
    (28 ≤ s.jtag_version →
      (s.open_ap apsel).2.device.trace =
        s.device.trace ++
          [[commands.JTAG_COMMAND, commands.JTAG_INIT_AP, apsel, commands.JTAG_AP_NO_CORE]] ∧
      (s.close_ap apsel).2.device.trace =
        s.device.trace ++ [[commands.JTAG_COMMAND, commands.JTAG_CLOSE_AP_DBG, apsel]]) := by
  constructor
  · intro h
    constructor <;> simp [STLink.open_ap, STLink.close_ap, MIN_JTAG_VERSION_MULTI_AP, h]
  · intro h
    have h' : ¬ s.jtag_version < MIN_JTAG_VERSION_MULTI_AP := by
      simp only [MIN_JTAG_VERSION_MULTI_AP]; omega
    constructor <;>
      simp only [STLink.open_ap, STLink.close_ap, if_neg h', STLinkUSBDevice.write]

/-- C7 (witness): at firmware 20 `open_ap` fails without touching the
device; at firmware 30 the `JTAG_INIT_AP` command is issued. -/
theorem stlink_multi_ap_commands_witness :
    (stlinkV2J20.open_ap 1 =
      (Except.error (DebugProbeError.Stlink StlinkError.JTagDoesNotSupportMultipleAP),
       stlinkV2J20)) ∧
    (stlinkV2J30.open_ap 1).2.device.trace =
      [[commands.JTAG_COMMAND, commands.JTAG_INIT_AP, 1, commands.JTAG_AP_NO_CORE]] :=
  ⟨((stlink_multi_ap_commands stlinkV2J20 1).1 (by decide)).1,
   by simpa using ((stlink_multi_ap_commands stlinkV2J30 1).2 (by decide)).1⟩

/-! ## Access-port enumeration (`coresight/ap_access.rs`)

`read_ap_register` on the debug port is modelled as an oracle mapping an AP
port number to the result of reading its IDR register: `none` for a failed
read, `some v` for a successful read of the value `v`. -/

/-- `access_port_is_valid` (`coresight/ap_access.rs` lines 79-88): an AP
exists when its IDR register reads successfully and is nonzero. -/
def access_port_is_valid (idr : Nat → Option Nat) (access_port : Nat) : Bool :=
  match idr access_port with
  | some v => v != 0
  | none => false

/-- `valid_access_ports` (`coresight/ap_access.rs` lines 91-99): the AP
numbers `0..=255`, filtered by `access_port_is_valid`. -/
def valid_access_ports (idr : Nat → Option Nat) : List Nat :=
  (List.range 256).filter (fun port => access_port_is_valid idr port)

/-- `get_ap_by_idr` (`coresight/ap_access.rs` lines 102-114): the first AP
in `0..=255` whose IDR read succeeds and satisfies the predicate. -/
def get_ap_by_idr (idr : Nat → Option Nat) (f : Nat → Bool) : Option Nat :=
  (List.range 256).find? (fun ap =>
    match idr ap with
    | some v => f v
    | none => false)

/-- C8: `valid_access_ports` returns exactly the access ports with numbers
in `0..=255` whose IDR read succeeds with a nonzero value — a port whose
IDR read fails or reads zero is excluded — and the result is in strictly
ascending order. -/
theorem valid_access_ports_spec (idr : Nat → Option Nat) :
    (∀ p, p ∈ valid_access_ports idr ↔
      p < 256 ∧ ∃ v, idr p = some v ∧ v ≠ 0) ∧
    (valid_access_ports idr).Sorted (· < ·) := by
  constructor
  · intro p
    simp only [valid_access_ports, List.mem_filter, List.mem_range]
    constructor
    · rintro ⟨hp, hv⟩
      refine ⟨hp, ?_⟩
      unfold access_port_is_valid at hv
      cases h : idr p with
      | none => rw [h] at hv; cases hv
      | some v =>
        rw [h] at hv
        exact ⟨v, rfl, by simpa using hv⟩
    · rintro ⟨hp, v, hv, hv0⟩
      exact ⟨hp, by simp [access_port_is_valid, hv, hv0]⟩
  · exact (List.sorted_lt_range 256).filter _

/-! ## cargo-flash nRF-recover policy (`cargo-flash/src/main.rs`)

The probe-setup arm of `main_try` (lines 238-260), on the path where probe
discovery and `attach` succeed.  Probe I/O is abstracted into a trace of
actions; the unlock sequence of `MasterProbe::nrf_recover` (not in the
source tree) is tracked as the single action `nrfRecover`. -/

/-- `DebugProbeType` of `probe/mod.rs`. -/
inductive DebugProbeType where
  | DAPLink : DebugProbeType
  | STLink : DebugProbeType
deriving Repr, DecidableEq

/-- The probe operations performed while setting up the probe in
`main_try`. -/
inductive ProbeAction where
  | attachSwd : ProbeAction
  | nrfRecover : ProbeAction
deriving Repr, DecidableEq

/-- The probe-setup arm of `main_try` (`cargo-flash/src/main.rs` lines
238-260): on a DAPLink the probe is attached and, when requested, the nRF
recover sequence is performed; on an ST-Link the probe is attached and a
requested nRF recover aborts with an error before any recover action. -/
def main_try_probe_setup (probe_type : DebugProbeType) (nrf_recover : Bool) :
    Except String Unit × List ProbeAction :=
  match probe_type with
  | DebugProbeType.DAPLink =>
    if nrf_recover then (Except.ok (), [ProbeAction.attachSwd, ProbeAction.nrfRecover])
    else (Except.ok (), [ProbeAction.attachSwd])
  | DebugProbeType.STLink =>
    if nrf_recover then
      (Except.error "It isn't possible to recover with a ST-Link", [ProbeAction.attachSwd])
    else (Except.ok (), [ProbeAction.attachSwd])

/-- C9: with `--nrf-recover` requested on an ST-Link, probe setup fails
with the error "It isn't possible to recover with a ST-Link" and the nRF
recover unlock sequence is never performed; on a DAPLink it is performed. -/
theorem nrf_recover_policy :
    (main_try_probe_setup DebugProbeType.STLink true).1 =
        Except.error "It isn't possible to recover with a ST-Link" ∧
    ProbeAction.nrfRecover ∉ (main_try_probe_setup DebugProbeType.STLink true).2 ∧
    ProbeAction.nrfRecover ∈ (main_try_probe_setup DebugProbeType.DAPLink true).2 := by
  refine ⟨rfl, by decide, by decide⟩

end ProbeRs
